import Mathlib

/-!
Shallow embedding of `src/main.rs` of the `todoist` command-line client.

The program is sequential glue: read an API key from a TOML config file,
read-or-fetch-and-cache the user profile as a JSON file, optionally POST one
`item_add` command, print status lines.  We model the external world (files,
the network, the uuid generator, stdout) explicitly and pass it through each
function, recording the observable events (network calls, directory creations,
file writes) in a trace.  A Rust `panic!`-style abort is a distinguished
`ProcResult.panicked` outcome, distinct from a returned `Err`.
-/

namespace Todoist

/-- A JSON value, at the level serde exchanges with the wire and the cache
file.  Pretty-printing does not change the value, so files store `Json`
values rather than byte strings. -/
inductive Json where
  | null : Json
  | str (s : String) : Json
  | arr (elems : List Json) : Json
  | obj (fields : List (String × Json)) : Json

/-- Modelled from the spec: the `User` entity of the `todoist::sync` library
crate (the crate is not under `src/`); the only attribute the spec gives it
is the inbox project identifier. -/
structure User where
  inbox_project_id : String
deriving DecidableEq

/-- Modelled from the spec: serde serialization of `User` (derived in the
library crate): a JSON object with the `inbox_project_id` field. -/
def User.toJson (u : User) : Json :=
  Json.obj [("inbox_project_id", Json.str u.inbox_project_id)]

/-- Modelled from the spec: serde deserialization of `User`: an object whose
`inbox_project_id` field is a string; anything else fails. -/
def User.fromJson : Json → Option User
  | Json.obj fields =>
      match fields.lookup "inbox_project_id" with
      | some (Json.str s) => some { inbox_project_id := s }
      | _ => none
  | _ => none

/-- Modelled from the spec: the `SyncResponse` of the library crate; it
optionally carries a user profile (present only when requested). -/
structure SyncResponse where
  user : Option User
deriving DecidableEq

/-- Modelled from the spec: the argument pair of an add-item command
(`AddItemRequestArgs` of the library crate), as constructed in `main.rs`. -/
structure AddItemRequestArgs where
  project_id : String
  content : String
deriving DecidableEq

/-- Modelled from the spec: one add-item command (`AddItemSyncCommand`), as
constructed in `main.rs`.  `Uuid` values are modelled as naturals drawn from
a fresh-id supply: the spec requires uniqueness, not secrecy, of the two
generated identifiers. -/
structure AddItemSyncCommand where
  request_type : String
  args : AddItemRequestArgs
  temp_id : Nat
  uuid : Nat
deriving DecidableEq

/-- Modelled from the spec: the command envelope of an add-item request
(`AddItemSyncRequest`), as constructed in `main.rs`. -/
structure AddItemSyncRequest where
  sync_token : String
  resource_types : List String
  commands : List AddItemSyncCommand
deriving DecidableEq

/-- Modelled from the spec: the command envelope of a get-user request
(`GetUserSyncRequest`), as constructed in `main.rs` (its command list is
always empty there). -/
structure GetUserSyncRequest where
  sync_token : String
  resource_types : List String
  commands : List AddItemSyncCommand
deriving DecidableEq

/-- Content of a file on disk, at parse level: a JSON document, a TOML table
of string-valued keys, or anything else (unparseable bytes). -/
inductive FileContent where
  | json (j : Json) : FileContent
  | toml (kv : List (String × String)) : FileContent
  | raw (s : String) : FileContent

/-- Outcome of one HTTP POST, as the environment decides it: a transport
failure (connection refused, timeout, DNS), a body that does not parse as a
`SyncResponse`, or a parsed response. -/
inductive NetResult where
  | transportErr : NetResult
  | parseErr : NetResult
  | ok (resp : SyncResponse) : NetResult

/-- A request emitted on the wire, with its envelope. -/
inductive SentRequest where
  | getUser (r : GetUserSyncRequest) : SentRequest
  | addItem (r : AddItemSyncRequest) : SentRequest
deriving DecidableEq

/-- An observable side effect. -/
inductive Event where
  | netCall (r : SentRequest) : Event
  | dirCreate (path : String) : Event
  | fileWrite (path : String) : Event
deriving DecidableEq

/-- The external world threaded through the program: the filesystem (a path
to content association list, later writes shadowing earlier ones), existing
directories, the network oracle (outcome of the n-th POST of the process),
how many POSTs happened, the fresh-uuid supply, stdout as the list of print
calls, the event trace, and the platform's per-user local data directory. -/
structure World where
  fs : List (String × FileContent)
  dirs : List String
  net : Nat → NetResult
  netCount : Nat
  uuidCounter : Nat
  stdout : List String
  trace : List Event
  dataLocalDir : String

/-- The spec's error taxonomy for errors returned as values (`Box<dyn Error>`
in the code): config file missing or malformed, cache file malformed, a
response body that is not a `SyncResponse`. -/
inductive AppError where
  | configError : AppError
  | cacheError : AppError
  | responseParseError : AppError
deriving DecidableEq

/-- Result of running a program fragment: a returned value, a returned error
(Rust `Err` propagated with the question-mark operator), or an abrupt abort
of the whole process (Rust panic). -/
inductive ProcResult (α : Type) where
  | ok (a : α) : ProcResult α
  | err (e : AppError) : ProcResult α
  | panicked (msg : String) : ProcResult α

/-- The parsed command-line arguments (`Args` in `main.rs`). -/
structure Args where
  add_todo : Option String
  sync_url : Option String
  local_dir : Option String

/-- `SYNC_URL` in `main.rs`: the fixed default sync endpoint. -/
def SYNC_URL : String := "https://api.todoist.com/sync/v9/sync"

/-- `get_api_key` in `main.rs`: read `<data_dir>/client_auth.toml` and parse
it as the one-field `Config`; a missing file or a parse failure is returned
as an error (the spec's `ConfigError`).  No side effect on the world. -/
def get_api_key (data_dir : String) (w : World) : ProcResult String × World :=
  let auth_path := data_dir ++ "/client_auth.toml"
  match w.fs.lookup auth_path with
  | none => (ProcResult.err AppError.configError, w)
  | some (FileContent.toml kv) =>
      match kv.lookup "api_key" with
      | some key => (ProcResult.ok key, w)
      | none => (ProcResult.err AppError.configError, w)
  | some _ => (ProcResult.err AppError.configError, w)

/-- The shared POST logic of `get_user` and `add_item` in `main.rs`: send the
envelope, then either abort the process on a transport error (the code's
`Err(err) => panic`), return a typed parse error when the body is not a
`SyncResponse` (the question-mark on `resp.json()`), or return the parsed
response.  The request is recorded in the trace in every case. -/
def send_sync_request (req : SentRequest) (w : World) :
    ProcResult SyncResponse × World :=
  let outcome := w.net w.netCount
  let w' := { w with netCount := w.netCount + 1,
                     trace := w.trace ++ [Event.netCall req] }
  match outcome with
  | NetResult.transportErr => (ProcResult.panicked "transport error", w')
  | NetResult.parseErr => (ProcResult.err AppError.responseParseError, w')
  | NetResult.ok resp => (ProcResult.ok resp, w')

/-- `get_user` in `main.rs`: POST an envelope requesting resource kind
`user` with zero commands; on success print and extract the `user` field of
the response, aborting the process when it is absent (the code's
`resp.user.unwrap()`). -/
def get_user (sync_url api_key : String) (w : World) :
    ProcResult User × World :=
  let w := { w with stdout := w.stdout ++ ["Fetching user data... "] }
  let request_body : GetUserSyncRequest :=
    { sync_token := "*", resource_types := ["user"], commands := [] }
  match send_sync_request (SentRequest.getUser request_body) w with
  | (ProcResult.ok resp, w) =>
      let w := { w with stdout := w.stdout ++ ["done."] }
      match resp.user with
      | some user => (ProcResult.ok user, w)
      | none => (ProcResult.panicked "Option.unwrap on None", w)
  | (ProcResult.err e, w) => (ProcResult.err e, w)
  | (ProcResult.panicked m, w) => (ProcResult.panicked m, w)

/-- `get_stored_user_data` in `main.rs`: if `<data_dir>/data/user.json` does
not exist, fetch the user remotely, create the `data` directory, write the
user as (pretty-printed) JSON to that path and return it; the fetch error
propagates before any filesystem write.  If the file exists, read it, parse
it as `User` and return the parsed value, failing on a parse failure (the
spec's `CacheError`) with no network call. -/
def get_stored_user_data (data_dir sync_url api_key : String) (w : World) :
    ProcResult User × World :=
  let user_storage_path := data_dir ++ "/data/user.json"
  if (w.fs.lookup user_storage_path).isNone then
    match get_user sync_url api_key w with
    | (ProcResult.ok user, w) =>
        let w := { w with stdout := w.stdout ++
          ["Storing user data in '" ++ user_storage_path ++ "'."] }
        let w := { w with dirs := w.dirs ++ [data_dir ++ "/data"],
                          trace := w.trace ++ [Event.dirCreate (data_dir ++ "/data")] }
        let w := { w with fs := (user_storage_path, FileContent.json user.toJson) :: w.fs,
                          trace := w.trace ++ [Event.fileWrite user_storage_path] }
        (ProcResult.ok user, w)
    | (ProcResult.err e, w) => (ProcResult.err e, w)
    | (ProcResult.panicked m, w) => (ProcResult.panicked m, w)
  else
    match w.fs.lookup user_storage_path with
    | some (FileContent.json j) =>
        match User.fromJson j with
        | some user => (ProcResult.ok user, w)
        | none => (ProcResult.err AppError.cacheError, w)
    | some _ => (ProcResult.err AppError.cacheError, w)
    | none => (ProcResult.err AppError.cacheError, w)

/-- `add_item` in `main.rs`: build the envelope — full-sync token, no
resource kinds, exactly one `item_add` command with the given project id and
item text and two freshly generated identifiers — and POST it. -/
def add_item (sync_url api_key project_id item : String) (w : World) :
    ProcResult SyncResponse × World :=
  let temp_id := w.uuidCounter
  let uuid := w.uuidCounter + 1
  let w := { w with uuidCounter := w.uuidCounter + 2 }
  let request_body : AddItemSyncRequest :=
    { sync_token := "*", resource_types := [],
      commands := [{ request_type := "item_add",
                     args := { project_id := project_id, content := item },
                     temp_id := temp_id, uuid := uuid }] }
  send_sync_request (SentRequest.addItem request_body) w

/-- The data directory resolution at the top of `main`: the explicit
`--local-dir` override, else the platform data directory joined with
`tuido`. -/
def resolveDataDir (args : Args) (w : World) : String :=
  match args.local_dir with
  | some dir => dir
  | none => w.dataLocalDir ++ "/tuido"

/-- `main` in `main.rs`: resolve the sync url and data directory, load the
API key, load-or-fetch the user, optionally add the supplied todo to the
inbox printing a confirmation only when the call succeeded, print the
farewell line and return `Ok(())` (exit code 0); a returned error from
config or cache loading propagates, a panic aborts. -/
def mainRun (args : Args) (w : World) : ProcResult Unit × World :=
  let sync_url := args.sync_url.getD SYNC_URL
  let data_dir := resolveDataDir args w
  match get_api_key data_dir w with
  | (ProcResult.ok api_key, w) =>
      match get_stored_user_data data_dir sync_url api_key w with
      | (ProcResult.ok stored_user, w) =>
          match args.add_todo with
          | some new_todo =>
              match add_item sync_url api_key stored_user.inbox_project_id new_todo w with
              | (ProcResult.ok _, w) =>
                  let w := { w with stdout := w.stdout ++
                    ["Todo '" ++ new_todo ++ "' added to inbox."] }
                  (ProcResult.ok (), { w with stdout := w.stdout ++ ["Bye!"] })
              | (ProcResult.err _, w) =>
                  (ProcResult.ok (), { w with stdout := w.stdout ++ ["Bye!"] })
              | (ProcResult.panicked m, w) => (ProcResult.panicked m, w)
          | none => (ProcResult.ok (), { w with stdout := w.stdout ++ ["Bye!"] })
      | (ProcResult.err e, w) => (ProcResult.err e, w)
      | (ProcResult.panicked m, w) => (ProcResult.panicked m, w)
  | (ProcResult.err e, w) => (ProcResult.err e, w)
  | (ProcResult.panicked m, w) => (ProcResult.panicked m, w)

/-- The network calls recorded in a trace, in order. -/
def netCalls (tr : List Event) : List SentRequest :=
  tr.filterMap fun e =>
    match e with
    | Event.netCall r => some r
    | _ => none

/-- The file writes recorded in a trace, in order. -/
def fileWrites (tr : List Event) : List String :=
  tr.filterMap fun e =>
    match e with
    | Event.fileWrite p => some p
    | _ => none

/-- The directory creations recorded in a trace, in order. -/
def dirCreates (tr : List Event) : List String :=
  tr.filterMap fun e =>
    match e with
    | Event.dirCreate p => some p
    | _ => none

/-! ### Helper lemmas -/

theorem netCalls_append (a b : List Event) :
    netCalls (a ++ b) = netCalls a ++ netCalls b := by
  simp [netCalls]

theorem fileWrites_append (a b : List Event) :
    fileWrites (a ++ b) = fileWrites a ++ fileWrites b := by
  simp [fileWrites]

theorem dirCreates_append (a b : List Event) :
    dirCreates (a ++ b) = dirCreates a ++ dirCreates b := by
  simp [dirCreates]

/-- serde round-trip of the `User` entity: deserializing its serialization
recovers it exactly. -/
theorem User.fromJson_toJson (u : User) : User.fromJson u.toJson = some u :=
  rfl

/-- `get_api_key` leaves the world untouched in every branch. -/
theorem get_api_key_world (data_dir : String) (w : World) :
    (get_api_key data_dir w).2 = w := by
  unfold get_api_key
  rcases h : w.fs.lookup (data_dir ++ "/client_auth.toml") with - | c
  · simp [h]
  · cases c with
    | json j => simp [h]
    | toml kv =>
        simp only [h]
        split <;> rfl
    | raw s => simp [h]

/-- `get_user` touches only stdout, the network counter and the trace: the
filesystem, directories, the uuid supply, the write events and the oracle
are those of the starting world, and exactly one get-user network call is
appended to the trace. -/
theorem get_user_effects (sync_url api_key : String) (w : World) :
    (get_user sync_url api_key w).2.fs = w.fs ∧
    (get_user sync_url api_key w).2.dirs = w.dirs ∧
    (get_user sync_url api_key w).2.uuidCounter = w.uuidCounter ∧
    (get_user sync_url api_key w).2.net = w.net ∧
    (get_user sync_url api_key w).2.netCount = w.netCount + 1 ∧
    (get_user sync_url api_key w).2.trace = w.trace ++
      [Event.netCall (SentRequest.getUser
        { sync_token := "*", resource_types := ["user"], commands := [] })] := by
  unfold get_user send_sync_request
  rcases h : w.net w.netCount with - | - | resp
  · simp [h]
  · simp [h]
  · rcases hu : resp.user with - | u <;> simp [h, hu]

/-- Whatever the outcome, `send_sync_request` bumps the network counter and
appends the request to the trace, touching nothing else. -/
theorem send_sync_request_world (req : SentRequest) (w : World) :
    (send_sync_request req w).2 =
      { w with netCount := w.netCount + 1,
               trace := w.trace ++ [Event.netCall req] } := by
  unfold send_sync_request
  rcases h : w.net w.netCount with - | - | resp <;> simp [h]

/-- The world after `add_item`: two identifiers drawn from the supply, one
network call with the one-command envelope appended to the trace. -/
theorem add_item_world (sync_url api_key project_id item : String) (w : World) :
    (add_item sync_url api_key project_id item w).2 =
      { w with uuidCounter := w.uuidCounter + 2,
               netCount := w.netCount + 1,
               trace := w.trace ++ [Event.netCall (SentRequest.addItem
                 { sync_token := "*", resource_types := [],
                   commands := [{ request_type := "item_add",
                                  args := { project_id := project_id,
                                            content := item },
                                  temp_id := w.uuidCounter,
                                  uuid := w.uuidCounter + 1 }] })] } := by
  unfold add_item
  rw [send_sync_request_world]

/-! ### Claim theorems -/

/-- C1: when the cache file `<dir>/data/user.json` is absent and the remote
get-user fetch yields a user, the User Cache performs exactly one get-user
network call, writes exactly one file, at that fixed path, whose content
parses back to exactly the fetched user (the cache round-trips with the
`User` entity), and returns the fetched user. -/
theorem spec_c1 (data_dir sync_url api_key : String) (w : World)
    (resp : SyncResponse) (user : User)
    (habs : (w.fs.lookup (data_dir ++ "/data/user.json")).isNone = true)
    (hnet : w.net w.netCount = NetResult.ok resp)
    (huser : resp.user = some user) :
    (get_stored_user_data data_dir sync_url api_key w).1 = ProcResult.ok user ∧
    netCalls (get_stored_user_data data_dir sync_url api_key w).2.trace =
      netCalls w.trace ++ [SentRequest.getUser
        { sync_token := "*", resource_types := ["user"], commands := [] }] ∧
    fileWrites (get_stored_user_data data_dir sync_url api_key w).2.trace =
      fileWrites w.trace ++ [data_dir ++ "/data/user.json"] ∧
    (get_stored_user_data data_dir sync_url api_key w).2.fs.lookup
      (data_dir ++ "/data/user.json") = some (FileContent.json user.toJson) ∧
    User.fromJson user.toJson = some user := by
  unfold get_stored_user_data get_user send_sync_request
  simp only [habs, if_true, hnet, huser]
  refine ⟨trivial, ?_, ?_, ?_, User.fromJson_toJson user⟩
  · simp [netCalls_append, netCalls]
  · simp [fileWrites_append, fileWrites]
  · simp [List.lookup]

/-- C1 witness: a concrete fresh directory and an oracle returning a user
with inbox project id `123`. -/
theorem spec_c1_witness :
    (get_stored_user_data "d" SYNC_URL "key"
        { fs := [], dirs := [], net := fun _ => NetResult.ok ⟨some ⟨"123"⟩⟩,
          netCount := 0, uuidCounter := 0, stdout := [], trace := [],
          dataLocalDir := "home" }).1 = ProcResult.ok ⟨"123"⟩ ∧
    netCalls (get_stored_user_data "d" SYNC_URL "key"
        { fs := [], dirs := [], net := fun _ => NetResult.ok ⟨some ⟨"123"⟩⟩,
          netCount := 0, uuidCounter := 0, stdout := [], trace := [],
          dataLocalDir := "home" }).2.trace =
      netCalls [] ++ [SentRequest.getUser
        { sync_token := "*", resource_types := ["user"], commands := [] }] ∧
    fileWrites (get_stored_user_data "d" SYNC_URL "key"
        { fs := [], dirs := [], net := fun _ => NetResult.ok ⟨some ⟨"123"⟩⟩,
          netCount := 0, uuidCounter := 0, stdout := [], trace := [],
          dataLocalDir := "home" }).2.trace = fileWrites [] ++ ["d" ++ "/data/user.json"] ∧
    (get_stored_user_data "d" SYNC_URL "key"
        { fs := [], dirs := [], net := fun _ => NetResult.ok ⟨some ⟨"123"⟩⟩,
          netCount := 0, uuidCounter := 0, stdout := [], trace := [],
          dataLocalDir := "home" }).2.fs.lookup ("d" ++ "/data/user.json") =
      some (FileContent.json (User.toJson ⟨"123"⟩)) ∧
    User.fromJson (User.toJson ⟨"123"⟩) = some ⟨"123"⟩ :=
  spec_c1 "d" SYNC_URL "key" _ ⟨some ⟨"123"⟩⟩ ⟨"123"⟩ rfl rfl rfl

/-- C2: when the cache file is present and parses as the `User` shape, the
User Cache returns exactly the parsed content and the world is unchanged —
in particular no network call, no write, no print happens. -/
theorem spec_c2 (data_dir sync_url api_key : String) (w : World)
    (j : Json) (user : User)
    (hfile : w.fs.lookup (data_dir ++ "/data/user.json") =
      some (FileContent.json j))
    (hparse : User.fromJson j = some user) :
    get_stored_user_data data_dir sync_url api_key w =
      (ProcResult.ok user, w) := by
  unfold get_stored_user_data
  simp only [hfile, hparse, Option.isNone_some, Bool.false_eq_true, if_false]

/-- C2 witness: a concrete world whose cache file holds the user with inbox
project id `123`; the run returns it and changes nothing. -/
theorem spec_c2_witness :
    get_stored_user_data "d" SYNC_URL "key"
        { fs := [("d/data/user.json", FileContent.json (User.toJson ⟨"123"⟩))],
          dirs := [], net := fun _ => NetResult.transportErr, netCount := 0,
          uuidCounter := 0, stdout := [], trace := [], dataLocalDir := "home" } =
      (ProcResult.ok ⟨"123"⟩,
        { fs := [("d/data/user.json", FileContent.json (User.toJson ⟨"123"⟩))],
          dirs := [], net := fun _ => NetResult.transportErr, netCount := 0,
          uuidCounter := 0, stdout := [], trace := [], dataLocalDir := "home" }) :=
  spec_c2 "d" SYNC_URL "key" _ (User.toJson ⟨"123"⟩) ⟨"123"⟩ rfl rfl

/-- C3: for every (project id, item text) pair, the Add Item envelope put on
the wire has an empty resource-kinds list, the full-sync cursor `*` as its
sync token, and exactly one command, whose type tag is `item_add` and whose
args are the given project id and item text. -/
theorem spec_c3 (sync_url api_key project_id item : String) (w : World) :
    ∃ cmd : AddItemSyncCommand,
      netCalls (add_item sync_url api_key project_id item w).2.trace =
        netCalls w.trace ++ [SentRequest.addItem
          { sync_token := "*", resource_types := [], commands := [cmd] }] ∧
      cmd.request_type = "item_add" ∧
      cmd.args = { project_id := project_id, content := item } := by
  refine ⟨{ request_type := "item_add",
            args := { project_id := project_id, content := item },
            temp_id := w.uuidCounter, uuid := w.uuidCounter + 1 },
          ?_, rfl, rfl⟩
  rw [add_item_world]
  simp [netCalls_append, netCalls]

/-- C8: each Add Item call emits exactly one command whose two generated
identifiers differ, and across two consecutive calls all four generated
identifiers are pairwise distinct. -/
theorem spec_c8 (sync_url api_key pid1 item1 pid2 item2 : String) (w : World) :
    ∃ cmd1 cmd2 : AddItemSyncCommand,
      netCalls (add_item sync_url api_key pid2 item2
          (add_item sync_url api_key pid1 item1 w).2).2.trace =
        netCalls w.trace ++
          [SentRequest.addItem
             { sync_token := "*", resource_types := [], commands := [cmd1] },
           SentRequest.addItem
             { sync_token := "*", resource_types := [], commands := [cmd2] }] ∧
      cmd1.temp_id ≠ cmd1.uuid ∧ cmd2.temp_id ≠ cmd2.uuid ∧
      cmd1.temp_id ≠ cmd2.temp_id ∧ cmd1.temp_id ≠ cmd2.uuid ∧
      cmd1.uuid ≠ cmd2.temp_id ∧ cmd1.uuid ≠ cmd2.uuid := by
  refine ⟨{ request_type := "item_add",
            args := { project_id := pid1, content := item1 },
            temp_id := w.uuidCounter, uuid := w.uuidCounter + 1 },
          { request_type := "item_add",
            args := { project_id := pid2, content := item2 },
            temp_id := w.uuidCounter + 2, uuid := w.uuidCounter + 3 },
          ?_, ?_, ?_, ?_, ?_, ?_, ?_⟩
  · rw [add_item_world, add_item_world]
    simp [netCalls_append, netCalls]
  all_goals dsimp only
  all_goals omega

/-- C5: for both Sync Client operations, a transport-level failure of the
POST aborts the process abruptly (a panic, never a returned error value),
while a non-transport failure — a body that does not parse as a
`SyncResponse` — is returned to the caller as a typed parse error. -/
theorem spec_c5 (sync_url api_key project_id item : String) (w : World) :
    (w.net w.netCount = NetResult.transportErr →
      (∃ m, (get_user sync_url api_key w).1 = ProcResult.panicked m) ∧
      (∃ m, (add_item sync_url api_key project_id item w).1 =
        ProcResult.panicked m)) ∧
    (w.net w.netCount = NetResult.parseErr →
      (get_user sync_url api_key w).1 =
        ProcResult.err AppError.responseParseError ∧
      (add_item sync_url api_key project_id item w).1 =
        ProcResult.err AppError.responseParseError) := by
  constructor <;> intro h <;>
    constructor <;>
    · simp only [get_user, add_item, send_sync_request]
      simp [h]

/-- C5 witness: a concrete transport-failing oracle panics both operations;
a concrete non-JSON-body oracle returns the typed parse error from both. -/
theorem spec_c5_witness :
    ((∃ m, (get_user SYNC_URL "key"
        { fs := [], dirs := [], net := fun _ => NetResult.transportErr,
          netCount := 0, uuidCounter := 0, stdout := [], trace := [],
          dataLocalDir := "home" }).1 = ProcResult.panicked m) ∧
     (∃ m, (add_item SYNC_URL "key" "123" "todo"
        { fs := [], dirs := [], net := fun _ => NetResult.transportErr,
          netCount := 0, uuidCounter := 0, stdout := [], trace := [],
          dataLocalDir := "home" }).1 = ProcResult.panicked m)) ∧
    ((get_user SYNC_URL "key"
        { fs := [], dirs := [], net := fun _ => NetResult.parseErr,
          netCount := 0, uuidCounter := 0, stdout := [], trace := [],
          dataLocalDir := "home" }).1 =
        ProcResult.err AppError.responseParseError ∧
     (add_item SYNC_URL "key" "123" "todo"
        { fs := [], dirs := [], net := fun _ => NetResult.parseErr,
          netCount := 0, uuidCounter := 0, stdout := [], trace := [],
          dataLocalDir := "home" }).1 =
        ProcResult.err AppError.responseParseError) :=
  ⟨(spec_c5 SYNC_URL "key" "123" "todo" _).1 rfl,
   (spec_c5 SYNC_URL "key" "123" "todo" _).2 rfl⟩

/-- C6: when the get-user response parses but carries no `user` field, the
operation aborts the process (the `unwrap`): it never returns any `User`
value at all, in particular no empty or default one. -/
theorem spec_c6 (sync_url api_key : String) (w : World) (resp : SyncResponse)
    (hnet : w.net w.netCount = NetResult.ok resp)
    (hnone : resp.user = none) :
    (∃ m, (get_user sync_url api_key w).1 = ProcResult.panicked m) ∧
    ∀ u : User, (get_user sync_url api_key w).1 ≠ ProcResult.ok u := by
  unfold get_user send_sync_request
  simp [hnet, hnone]

/-- C6 witness: a concrete oracle answering with a response whose `user`
field is absent. -/
theorem spec_c6_witness :
    (∃ m, (get_user SYNC_URL "key"
        { fs := [], dirs := [], net := fun _ => NetResult.ok ⟨none⟩,
          netCount := 0, uuidCounter := 0, stdout := [], trace := [],
          dataLocalDir := "home" }).1 = ProcResult.panicked m) ∧
    ∀ u : User, (get_user SYNC_URL "key"
        { fs := [], dirs := [], net := fun _ => NetResult.ok ⟨none⟩,
          netCount := 0, uuidCounter := 0, stdout := [], trace := [],
          dataLocalDir := "home" }).1 ≠ ProcResult.ok u :=
  spec_c6 SYNC_URL "key" _ ⟨none⟩ rfl rfl

/-- C7: when the cache file exists but does not parse as the `User` shape,
the User Cache fails with the cache error and the world is unchanged — in
particular zero network calls, no fallback re-fetch. -/
theorem spec_c7 (data_dir sync_url api_key : String) (w : World)
    (c : FileContent)
    (hfile : w.fs.lookup (data_dir ++ "/data/user.json") = some c)
    (hbad : ∀ j : Json, c = FileContent.json j → User.fromJson j = none) :
    get_stored_user_data data_dir sync_url api_key w =
      (ProcResult.err AppError.cacheError, w) := by
  unfold get_stored_user_data
  simp only [hfile, Option.isNone_some, Bool.false_eq_true, if_false]
  cases c with
  | json j => simp [hbad j rfl]
  | toml kv => rfl
  | raw s => rfl

/-- C7 witness: a concrete present cache file holding a JSON string instead
of a user object; the run fails with the cache error, world untouched. -/
theorem spec_c7_witness :
    get_stored_user_data "d" SYNC_URL "key"
        { fs := [("d/data/user.json", FileContent.json (Json.str "garbage"))],
          dirs := [], net := fun _ => NetResult.ok ⟨some ⟨"123"⟩⟩,
          netCount := 0, uuidCounter := 0, stdout := [], trace := [],
          dataLocalDir := "home" } =
      (ProcResult.err AppError.cacheError,
        { fs := [("d/data/user.json", FileContent.json (Json.str "garbage"))],
          dirs := [], net := fun _ => NetResult.ok ⟨some ⟨"123"⟩⟩,
          netCount := 0, uuidCounter := 0, stdout := [], trace := [],
          dataLocalDir := "home" }) :=
  spec_c7 "d" SYNC_URL "key" _ (FileContent.json (Json.str "garbage")) rfl
    (fun j hj => by cases hj; rfl)

/-- C9: when the cache file is absent and the remote fetch does not return a
user (it returns an error or aborts), the User Cache creates no directory
and writes no file: the filesystem and the directory set are exactly those
of the starting world, and no write or directory-creation event is added. -/
theorem spec_c9 (data_dir sync_url api_key : String) (w : World)
    (habs : (w.fs.lookup (data_dir ++ "/data/user.json")).isNone = true)
    (hfail : ∀ u : User,
      (get_user sync_url api_key w).1 ≠ ProcResult.ok u) :
    (get_stored_user_data data_dir sync_url api_key w).2.fs = w.fs ∧
    (get_stored_user_data data_dir sync_url api_key w).2.dirs = w.dirs ∧
    fileWrites (get_stored_user_data data_dir sync_url api_key w).2.trace =
      fileWrites w.trace ∧
    dirCreates (get_stored_user_data data_dir sync_url api_key w).2.trace =
      dirCreates w.trace := by
  have he := get_user_effects sync_url api_key w
  unfold get_stored_user_data
  simp only [habs, if_true]
  rcases hg : get_user sync_url api_key w with ⟨r, w'⟩
  rw [hg] at he
  dsimp only at he
  rcases r with u | e | m
  · exact absurd (congrArg Prod.fst hg) (hfail u)
  · simp only []
    refine ⟨he.1, he.2.1, ?_, ?_⟩ <;>
      simp [he.2.2.2.2.2, fileWrites_append, dirCreates_append,
            fileWrites, dirCreates]
  · simp only []
    refine ⟨he.1, he.2.1, ?_, ?_⟩ <;>
      simp [he.2.2.2.2.2, fileWrites_append, dirCreates_append,
            fileWrites, dirCreates]

/-- C9 witness: a concrete fresh directory whose fetch yields a non-JSON
body; nothing is created on disk. -/
theorem spec_c9_witness :
    (get_stored_user_data "d" SYNC_URL "key"
        { fs := [], dirs := [], net := fun _ => NetResult.parseErr,
          netCount := 0, uuidCounter := 0, stdout := [], trace := [],
          dataLocalDir := "home" }).2.fs = [] ∧
    (get_stored_user_data "d" SYNC_URL "key"
        { fs := [], dirs := [], net := fun _ => NetResult.parseErr,
          netCount := 0, uuidCounter := 0, stdout := [], trace := [],
          dataLocalDir := "home" }).2.dirs = [] ∧
    fileWrites (get_stored_user_data "d" SYNC_URL "key"
        { fs := [], dirs := [], net := fun _ => NetResult.parseErr,
          netCount := 0, uuidCounter := 0, stdout := [], trace := [],
          dataLocalDir := "home" }).2.trace = fileWrites [] ∧
    dirCreates (get_stored_user_data "d" SYNC_URL "key"
        { fs := [], dirs := [], net := fun _ => NetResult.parseErr,
          netCount := 0, uuidCounter := 0, stdout := [], trace := [],
          dataLocalDir := "home" }).2.trace = dirCreates [] :=
  spec_c9 "d" SYNC_URL "key" _ rfl
    (fun u h => by simp [get_user, send_sync_request] at h)

/-- C10: when the Config Loader fails (no valid credential is returned), the
whole run performs zero network operations: the network counter and the
recorded network calls of the final world are those of the starting world,
whether or not an add-todo argument was supplied. -/
theorem spec_c10 (args : Args) (w : World)
    (hfail : ∀ k : String,
      (get_api_key (resolveDataDir args w) w).1 ≠ ProcResult.ok k) :
    netCalls (mainRun args w).2.trace = netCalls w.trace ∧
    (mainRun args w).2.netCount = w.netCount := by
  have hw := get_api_key_world (resolveDataDir args w) w
  unfold mainRun
  rcases hg : get_api_key (resolveDataDir args w) w with ⟨r, w'⟩
  rw [hg] at hw
  dsimp only at hw
  dsimp only
  rw [hg]
  rcases r with k | e | m
  · exact absurd (congrArg Prod.fst hg) (hfail k)
  · dsimp only
    rw [hw]
    exact ⟨rfl, rfl⟩
  · dsimp only
    rw [hw]
    exact ⟨rfl, rfl⟩

/-- C10 witness: a concrete world with no credentials file and the add-todo
argument supplied; the run touches the network not at all. -/
theorem spec_c10_witness :
    netCalls (mainRun
        { add_todo := some "todo", sync_url := none, local_dir := some "d" }
        { fs := [], dirs := [], net := fun _ => NetResult.ok ⟨some ⟨"123"⟩⟩,
          netCount := 0, uuidCounter := 0, stdout := [], trace := [],
          dataLocalDir := "home" }).2.trace = netCalls [] ∧
    (mainRun
        { add_todo := some "todo", sync_url := none, local_dir := some "d" }
        { fs := [], dirs := [], net := fun _ => NetResult.ok ⟨some ⟨"123"⟩⟩,
          netCount := 0, uuidCounter := 0, stdout := [], trace := [],
          dataLocalDir := "home" }).2.netCount = 0 :=
  spec_c10 _ _ (fun k h => by simp [get_api_key] at h)

/-- C4: when the add-todo argument is supplied and config and user loading
succeed, the entry point prints the confirmation line exactly when the Add
Item call returns success; when it returns a failure nothing is printed for
it — no confirmation, no error line — and in both cases the farewell line
is printed and the run returns `Ok(())` (exit code 0). -/
theorem spec_c4 (args : Args) (w w1 w2 : World) (api_key : String)
    (user : User) (new_todo : String)
    (htodo : args.add_todo = some new_todo)
    (hcfg : get_api_key (resolveDataDir args w) w = (ProcResult.ok api_key, w1))
    (huser : get_stored_user_data (resolveDataDir args w)
      (args.sync_url.getD SYNC_URL) api_key w1 = (ProcResult.ok user, w2)) :
    ((∃ resp, (add_item (args.sync_url.getD SYNC_URL) api_key
        user.inbox_project_id new_todo w2).1 = ProcResult.ok resp) →
      mainRun args w = (ProcResult.ok (),
        { (add_item (args.sync_url.getD SYNC_URL) api_key
            user.inbox_project_id new_todo w2).2 with
          stdout := (add_item (args.sync_url.getD SYNC_URL) api_key
            user.inbox_project_id new_todo w2).2.stdout ++
            ["Todo '" ++ new_todo ++ "' added to inbox.", "Bye!"] })) ∧
    ((∃ e, (add_item (args.sync_url.getD SYNC_URL) api_key
        user.inbox_project_id new_todo w2).1 = ProcResult.err e) →
      mainRun args w = (ProcResult.ok (),
        { (add_item (args.sync_url.getD SYNC_URL) api_key
            user.inbox_project_id new_todo w2).2 with
          stdout := (add_item (args.sync_url.getD SYNC_URL) api_key
            user.inbox_project_id new_todo w2).2.stdout ++ ["Bye!"] })) := by
  unfold mainRun
  dsimp only
  rw [hcfg]
  dsimp only
  rw [huser]
  dsimp only
  rw [htodo]
  dsimp only
  rcases ha : add_item (args.sync_url.getD SYNC_URL) api_key
      user.inbox_project_id new_todo w2 with ⟨r, w3⟩
  constructor
  · rintro ⟨resp, hr⟩
    dsimp only at hr
    subst hr
    dsimp only
    simp
  · rintro ⟨e, hr⟩
    dsimp only at hr
    subst hr
    dsimp only

/-- The command-line arguments of the C4 witness: add `Buy milk`, overriding
the endpoint and the data directory. -/
def exampleArgs : Args :=
  { add_todo := some "Buy milk", sync_url := some "u", local_dir := some "d" }

/-- The starting world of the C4 witness runs: valid credentials and a valid
cache file under `d`, the oracle outcome left as a parameter. -/
def exampleWorld (o : NetResult) : World :=
  { fs := [("d/client_auth.toml", FileContent.toml [("api_key", "k")]),
           ("d/data/user.json", FileContent.json (User.toJson ⟨"123"⟩))],
    dirs := [], net := fun _ => o, netCount := 0, uuidCounter := 0,
    stdout := [], trace := [], dataLocalDir := "home" }

/-- C4 witness: with concrete valid config and cache, a succeeding Add Item
yields the confirmation line then the farewell; a failing one yields only
the farewell; both runs return `Ok(())`. -/
theorem spec_c4_witness :
    (mainRun exampleArgs (exampleWorld (NetResult.ok ⟨none⟩)) =
      (ProcResult.ok (),
        { (add_item "u" "k" "123" "Buy milk"
            (exampleWorld (NetResult.ok ⟨none⟩))).2 with
          stdout := (add_item "u" "k" "123" "Buy milk"
            (exampleWorld (NetResult.ok ⟨none⟩))).2.stdout ++
            ["Todo '" ++ "Buy milk" ++ "' added to inbox.", "Bye!"] })) ∧
    (mainRun exampleArgs (exampleWorld NetResult.parseErr) =
      (ProcResult.ok (),
        { (add_item "u" "k" "123" "Buy milk"
            (exampleWorld NetResult.parseErr)).2 with
          stdout := (add_item "u" "k" "123" "Buy milk"
            (exampleWorld NetResult.parseErr)).2.stdout ++ ["Bye!"] })) :=
  ⟨(spec_c4 exampleArgs (exampleWorld (NetResult.ok ⟨none⟩))
      (exampleWorld (NetResult.ok ⟨none⟩)) (exampleWorld (NetResult.ok ⟨none⟩))
      "k" ⟨"123"⟩ "Buy milk" rfl rfl rfl).1 ⟨⟨none⟩, rfl⟩,
   (spec_c4 exampleArgs (exampleWorld NetResult.parseErr)
      (exampleWorld NetResult.parseErr) (exampleWorld NetResult.parseErr)
      "k" ⟨"123"⟩ "Buy milk" rfl rfl rfl).2
     ⟨AppError.responseParseError, rfl⟩⟩

end Todoist
